import Mathlib

/-!
# Verification of the sqlgen orchestration core

A shallow embedding, in Lean, of the query pipeline, training orchestrator,
and provider adapters of the sqlgen repository
(`src/services/query-pipeline.ts`, `src/services/text-to-sql.ts`,
`src/train.ts`, `src/providers/postgres.ts`, `src/providers/qdrant.ts`),
together with theorems settling the repository's specification claims.

Modelling conventions:

* The TypeScript code is written against the `effect` library.  Every
  operation there is an `Effect` value: a sequential computation that either
  succeeds with a value or fails with a typed error, threading no other
  implicit state.  We embed such computations as functions
  `World → Except Err α × World`, where `World` carries (a) the behaviour of
  the external collaborators (the Postgres pool, the Qdrant server, the LLM
  provider), supplied as oracle functions, (b) the observable state of the
  vector store, and (c) a trace of every outbound call, so that temporal /
  frame claims ("no execution call is made", "ensureCollection is called
  exactly once") can be stated as properties of the trace.
* A failed step short-circuits the remainder of the computation, exactly as
  an `Effect` failure does, but the `World` (in particular its trace) at the
  moment of failure is retained.
* JavaScript semantics that matter to the claims are modelled explicitly:
  `Effect.gen` does not throw failures of yielded effects into the generator
  body, so a JS `try/catch` around a `yield*` never observes the failure;
  `JSON.parse` results are JS values on which absent properties read as
  `undefined`.
* Machine numbers (confidences, temperatures, embedding components) are
  modelled as `ℚ`; the claims only compare them, never exercise rounding.
* JS number-to-string rendering (only used inside error messages) is
  abstracted by `ratStr`; no claim depends on the rendered digits.
-/

/-- A JavaScript value, as produced by `JSON.parse` and consumed by property
access (`parsed.sql` and the like) in `text-to-sql.ts`.  Absent object
properties read as `undefv`. -/
inductive JsValue where
  | undefv : JsValue
  | nullv : JsValue
  | bool : Bool → JsValue
  | num : ℚ → JsValue
  | str : String → JsValue
  | obj : List (String × JsValue) → JsValue

/-- JS property access `v[k]` as it behaves on a `JSON.parse` result:
a lookup on objects, `undefined` on any other non-null value. `null` is
handled separately by the caller (property access on it throws). -/
def JsValue.fieldOf : JsValue → String → JsValue
  | .obj fields, k => (fields.lookup k).getD .undefv
  | _, _ => .undefv

/-- The error taxonomy of the repository.  Each wrapper class
(`PostgresError`, `QdrantError`, `TextToSqlError`, `TrainingError`,
`QueryPipelineError`) carries a message and an optional cause; `js` stands
for a raw JavaScript/provider error (the value caught by `Effect.tryPromise`),
carrying its stringification. -/
inductive Err where
  | js : String → Err
  | pg : String → Option Err → Err
  | qdrant : String → Option Err → Err
  | textToSql : String → Option Err → Err
  | training : String → Option Err → Err
  | queryPipeline : String → Option Err → Err

/-- The `name` property of the error class, as set in each constructor. -/
def Err.errName : Err → String
  | .js _ => "Error"
  | .pg _ _ => "PostgresError"
  | .qdrant _ _ => "QdrantError"
  | .textToSql _ _ => "TextToSqlError"
  | .training _ _ => "TrainingError"
  | .queryPipeline _ _ => "QueryPipelineError"

/-- The `message` property of the error. -/
def Err.message : Err → String
  | .js m => m
  | .pg m _ => m
  | .qdrant m _ => m
  | .textToSql m _ => m
  | .training m _ => m
  | .queryPipeline m _ => m

/-- JS template-literal stringification of an error, `Name: message`,
as produced by the interpolations `` `... ${error}` `` in the source. -/
def Err.toStr (e : Err) : String := e.errName ++ ": " ++ e.message

/-- A database row, as the dynamic objects returned by `pg`'s `pool.query`:
an association list from column name to (string-rendered) value. -/
abbrev Row := List (String × String)

/-- `VectorRecord` from `src/providers/qdrant.ts`:
`{id, vector, payload: {content, metadata?}}`. -/
structure VectorRecord where
  id : String
  vector : List ℚ
  content : String
  metadata : List (String × String)

/-- One outbound call to an external collaborator, as recorded in the
execution trace. -/
inductive Call where
  /-- `pool.query(sql, params)` on the Postgres pool (the Schema Store
  execute path; both plain queries and `EXPLAIN` forms go through it). -/
  | pgQuery : String → List String → Call
  /-- `client.getCollections()` on the Qdrant client. -/
  | qdrantGetCollections : Call
  /-- `client.createCollection(name, {size})` on the Qdrant client. -/
  | qdrantCreateCollection : String → Nat → Call
  /-- `client.upsert(collection, {points})` on the Qdrant client. -/
  | qdrantUpsert : String → List VectorRecord → Call
  /-- `client.search(collection, {vector, limit})` on the Qdrant client. -/
  | qdrantSearch : String → Nat → Call
  /-- `embed({model, value})` against the LLM provider. -/
  | llmEmbed : String → String → Call
  /-- `generateText({model, prompt, maxTokens, temperature})` against the
  LLM provider. -/
  | llmComplete : String → String → Nat → ℚ → Call
  /-- An invocation of `TextToSqlService.generateSql`, recorded when the
  query pipeline consumes the generation service through its interface. -/
  | genSql : String → Call

/-- Behaviour of the external collaborators, supplied as oracles.
Determinism is not a restriction: each claim quantifies over all oracles. -/
structure Env where
  /-- Result of `pool.query(sql, params)`: rows, or the stringification of
  the rejection. -/
  pool : String → List String → Except String (List Row)
  /-- Result of `embed({model, value})`: the embedding vector, or an error. -/
  embedRes : String → String → Except String (List ℚ)
  /-- Result of `generateText({model, prompt, maxTokens, temperature})`:
  the completion text, or an error. -/
  completeRes : String → String → Nat → ℚ → Except String String
  /-- `JSON.parse`, modelled as a partial function to JS values
  (`none` = the `SyntaxError` throw). -/
  jsonParse : String → Option JsValue
  /-- Rejection of `client.getCollections()`, when `some`. -/
  getCollectionsFail : Option String
  /-- Rejection of `client.createCollection(...)`, when `some`. -/
  createFail : Option String
  /-- Rejection of `client.upsert(...)`, when `some`. -/
  upsertFail : Option String
  /-- Result of `client.search(collection, {vector, limit})`: the ranked
  records, or an error. -/
  searchRes : List ℚ → Nat → Except String (List VectorRecord)

/-- The world a computation runs in: the collaborator oracles, the observable
state of the vector store, the call trace, the `crypto.randomUUID()` freshness
counter, and the wall clock read by `Date.now()` / `new Date()`. -/
structure World where
  env : Env
  /-- The collections existing on the Qdrant server, with their declared
  vector sizes. -/
  collections : List (String × Nat)
  /-- The points stored in the configured collection. -/
  points : List VectorRecord
  /-- Trace of outbound calls, oldest first. -/
  trace : List Call
  /-- Freshness counter backing `crypto.randomUUID()`. -/
  nextId : Nat
  /-- `new Date().toISOString()`, constant during a run. -/
  now : String
  /-- `Date.now()`, constant during a run (no claim concerns durations). -/
  clock : Nat

/-- The effect monad of the embedding: sequential state passing with a typed
error channel.  On failure the world (hence the trace) reached so far is
kept, as with a failed `Effect`. -/
def EffM (α : Type) : Type := World → Except Err α × World

instance : Monad EffM where
  pure a := fun w => (Except.ok a, w)
  bind x f := fun w =>
    match x w with
    | (Except.ok a, w2) => f a w2
    | (Except.error e, w2) => (Except.error e, w2)

/-- `Effect.fail`. -/
def failE (e : Err) : EffM α := fun w => (Except.error e, w)

/-- `Effect.mapError`. -/
def mapErr (f : Err → Err) (x : EffM α) : EffM α := fun w =>
  match x w with
  | (Except.ok a, w2) => (Except.ok a, w2)
  | (Except.error e, w2) => (Except.error (f e), w2)

/-- Unfolding of `>>=` applied to a world. -/
theorem EffM.run_bind (x : EffM α) (f : α → EffM β) (w : World) :
    (x >>= f) w = match x w with
      | (Except.ok a, w2) => f a w2
      | (Except.error e, w2) => (Except.error e, w2) := rfl

/-- Unfolding of `pure` applied to a world. -/
theorem EffM.run_pure (a : α) (w : World) :
    (pure a : EffM α) w = (Except.ok a, w) := rfl

/-- Unfolding of `mapErr` applied to a world. -/
theorem EffM.run_mapErr (f : Err → Err) (x : EffM α) (w : World) :
    mapErr f x w = match x w with
      | (Except.ok a, w2) => (Except.ok a, w2)
      | (Except.error e, w2) => (Except.error (f e), w2) := rfl

/-- `Effect.forEach` with its default options: sequential, in input order,
short-circuiting on the first failure, collecting the results. -/
def effForEach : List α → (α → EffM β) → EffM (List β)
  | [], _ => pure []
  | x :: xs, f => do
    let b ← f x
    let bs ← effForEach xs f
    pure (b :: bs)

/-- Abstraction of JS number rendering inside template literals; no claim
depends on the digits produced. -/
def ratStr (q : ℚ) : String := toString q.num ++ "/" ++ toString q.den

/-- The Schema Store query calls recorded in a trace (sql, params):
every interaction with the Postgres execute path. -/
def pgCalls (t : List Call) : List (String × List String) :=
  t.filterMap fun c => match c with
    | .pgQuery s p => some (s, p)
    | _ => none

/-- The texts sent to the LLM embedding endpoint in a trace (each one is one
embed-and-store attempt during training). -/
def embedTexts (t : List Call) : List String :=
  t.filterMap fun c => match c with
    | .llmEmbed _ text => some text
    | _ => none

/-- The `getCollections` calls recorded in a trace: each invocation of the
Qdrant adapter's `createCollection` (the ensure-collection operation) records
exactly one of these, first thing. -/
def ensureCalls (t : List Call) : List Call :=
  t.filter fun c => match c with
    | .qdrantGetCollections => true
    | _ => false

/-! ## Postgres provider (`src/providers/postgres.ts`) -/

/-- `pool.query` wrapped by the adapter's `query`: one network call,
failures wrapped as `PostgresError("Query failed: ...", error)`. -/
def Postgres.query (sql : String) (params : List String) : EffM (List Row) := fun w =>
  let w1 := { w with trace := w.trace ++ [Call.pgQuery sql params] }
  match w.env.pool sql params with
  | .ok rows => (.ok rows, w1)
  | .error m => (.error (.pg ("Query failed: " ++ m) (some (.js m))), w1)

/-- The table-listing statement issued by `getSchema`. -/
def listTablesSql : String :=
  "SELECT table_name FROM information_schema.tables WHERE table_schema = \x27public\x27"

/-- The column-listing statement issued by `getTableSchema` (whitespace of the
source's multi-line template normalised to single spaces). -/
def columnsSql : String :=
  "SELECT column_name, data_type, is_nullable, column_default FROM information_schema.columns WHERE table_name = $1 ORDER BY ordinal_position"

/-- `getSchema`: list the public tables, projecting `row.table_name`
(an absent column would read as JS `undefined`; rendered here as
`"undefined"`, which no claim depends on). -/
def Postgres.getSchema : EffM (List String) := do
  let rows ← Postgres.query listTablesSql []
  pure (rows.map fun row => (row.lookup "table_name").getD "undefined")

/-- One rendered column of `getTableSchema`:
`` `${column_name} ${data_type}${NOT NULL?}${DEFAULT?}` `` with the source's
truthiness test on `column_default` (absent or empty string renders nothing). -/
def renderColumn (row : Row) : String :=
  ((row.lookup "column_name").getD "undefined") ++ " " ++
  ((row.lookup "data_type").getD "undefined") ++
  (if (row.lookup "is_nullable") = some "NO" then " NOT NULL" else "") ++
  (match row.lookup "column_default" with
   | some d => if d = "" then "" else " DEFAULT " ++ d
   | none => "")

/-- `getTableSchema`: query the columns of a table and render a
`CREATE TABLE` DDL string from them. -/
def Postgres.getTableSchema (tableName : String) : EffM String := do
  let rows ← Postgres.query columnsSql [tableName]
  pure ("CREATE TABLE " ++ tableName ++ " (" ++
    String.intercalate ", " (rows.map renderColumn) ++ ")")

/-! ## Qdrant provider (`src/providers/qdrant.ts`) -/

/-- `QdrantConfig` from the source (`url`/`apiKey` only select the client
endpoint and play no further role in the adapter's logic). -/
structure QdrantConfig where
  url : String
  apiKey : Option String := none
  collectionName : String

/-- Qdrant's native upsert semantics for a single point: replace the stored
point with the same id if one exists, otherwise append. -/
def upsertOne (pts : List VectorRecord) (p : VectorRecord) : List VectorRecord :=
  if pts.any (fun q => q.id == p.id) then
    pts.map (fun q => if q.id == p.id then p else q)
  else pts ++ [p]

/-- Qdrant's native upsert semantics for a batch of points, in order. -/
def upsertPoints (pts news : List VectorRecord) : List VectorRecord :=
  news.foldl upsertOne pts

/-- `createCollection`: one `getCollections` network call; if no collection
with the configured name exists, one `createCollection` network call.  Both
failure paths funnel through the single
`QdrantError("Failed to create collection: ...")` catch of the source. -/
def Qdrant.createCollection (qcfg : QdrantConfig) (vectorSize : Nat) : EffM Unit := fun w =>
  let w1 := { w with trace := w.trace ++ [Call.qdrantGetCollections] }
  match w.env.getCollectionsFail with
  | some m => (.error (.qdrant ("Failed to create collection: " ++ m) (some (.js m))), w1)
  | none =>
    if w.collections.any (fun col => col.1 == qcfg.collectionName) then
      (.ok (), w1)
    else
      let w2 := { w1 with trace := w1.trace ++ [Call.qdrantCreateCollection qcfg.collectionName vectorSize] }
      match w.env.createFail with
      | some m => (.error (.qdrant ("Failed to create collection: " ++ m) (some (.js m))), w2)
      | none => (.ok (), { w2 with collections := w2.collections ++ [(qcfg.collectionName, vectorSize)] })

/-- `upsertVectors`: a single `client.upsert` network call forwarding the
given records unchanged (the source maps each record to
`{id, vector, payload}`, an identity re-packaging); failures wrapped as
`QdrantError("Failed to upsert vectors: ...")`.  The source performs no
check of any kind on the vectors' lengths. -/
def Qdrant.upsertVectors (qcfg : QdrantConfig) (vectors : List VectorRecord) : EffM Unit := fun w =>
  let w1 := { w with trace := w.trace ++ [Call.qdrantUpsert qcfg.collectionName vectors] }
  match w.env.upsertFail with
  | some m => (.error (.qdrant ("Failed to upsert vectors: " ++ m) (some (.js m))), w1)
  | none => (.ok (), { w1 with points := upsertPoints w1.points vectors })

/-- `search`: a single `client.search` network call with the given vector and
limit; failures wrapped as `QdrantError("Search failed: ...")`. -/
def Qdrant.search (qcfg : QdrantConfig) (vector : List ℚ) (limit : Nat) : EffM (List VectorRecord) := fun w =>
  let w1 := { w with trace := w.trace ++ [Call.qdrantSearch qcfg.collectionName limit] }
  match w.env.searchRes vector limit with
  | .ok recs => (.ok recs, w1)
  | .error m => (.error (.qdrant ("Search failed: " ++ m) (some (.js m))), w1)

/-! ## Text-to-SQL service (`src/services/text-to-sql.ts`) -/

/-- `TextToSqlConfig` from the source. -/
structure TextToSqlConfig where
  model : String
  embeddingModel : String
  maxTokens : Option Nat := none
  temperature : Option ℚ := none

/-- The result of `generateSql` as it actually exists at runtime: the three
properties read off the `JSON.parse` result, each possibly `undefined`
(the TS type `SqlResult` promises `string`/`number`/`string`, but nothing
enforces it). -/
structure SqlResultJs where
  sql : JsValue
  confidence : JsValue
  explanation : JsValue

/-- The completion prompt of `generateSql` (the source's template literal;
its leading indentation whitespace is normalised away). -/
def buildPrompt (schemaContext question : String) : String :=
  "You are a SQL expert. Given the following database schema and a natural language question, generate a SQL query.\n\nDatabase Schema:\n" ++
  schemaContext ++
  "\n\nQuestion: " ++ question ++
  "\n\nGenerate a SQL query that answers this question. Provide your response in the following JSON format:\n\x7b\n  \"sql\": \"your SQL query here\",\n  \"confidence\": 0.95,\n  \"explanation\": \"Brief explanation of the query\"\n\x7d\n\nMake sure the SQL is syntactically correct and follows PostgreSQL conventions."

/-- `crypto.randomUUID()`: a fresh, never-repeating identifier drawn from
the world's freshness counter (rendered in unary so that injectivity of the
rendering is immediate; only freshness matters to the claims). -/
def uuidString (n : Nat) : String := "uuid-" ++ String.mk (List.replicate n 'u')

/-- Draw a fresh uuid and advance the counter. -/
def freshUuid : EffM String := fun w =>
  (.ok (uuidString w.nextId), { w with nextId := w.nextId + 1 })

/-- `embed({model, value})`: one provider call, failure wrapped as
`TextToSqlError("Failed to generate embedding: ...")` (shared by
`generateSql` and `trainFromSchema`, which use the identical wrapper). -/
def TextToSql.embedCall (embeddingModel text : String) : EffM (List ℚ) := fun w =>
  let w1 := { w with trace := w.trace ++ [Call.llmEmbed embeddingModel text] }
  match w.env.embedRes embeddingModel text with
  | .ok v => (.ok v, w1)
  | .error m => (.error (.textToSql ("Failed to generate embedding: " ++ m) (some (.js m))), w1)

/-- `generateText(...)`: one provider call, failure wrapped as
`TextToSqlError("SQL generation failed: ...")`. -/
def TextToSql.completeCall (model prompt : String) (maxTokens : Nat) (temperature : ℚ) : EffM String := fun w =>
  let w1 := { w with trace := w.trace ++ [Call.llmComplete model prompt maxTokens temperature] }
  match w.env.completeRes model prompt maxTokens temperature with
  | .ok text => (.ok text, w1)
  | .error m => (.error (.textToSql ("SQL generation failed: " ++ m) (some (.js m))), w1)

/-- `generateSql` from `text-to-sql.ts`: embed the question, search the
vector index for the top 5 similar records, build the prompt from their
payload contents joined by blank lines, issue one completion call, and
`JSON.parse` its text inside a synchronous `try/catch`.  Parse failure (and
the `TypeError` thrown by property access when the parse result is `null`)
is caught and surfaced as `TextToSqlError("Failed to parse AI response: ...")`.
On success the three properties are read off the parsed value with no
presence check, no clamping and no repair: an absent field comes back as
`undefined`. -/
def TextToSql.generateSqlImpl (cfg : TextToSqlConfig) (qcfg : QdrantConfig)
    (question : String) : EffM SqlResultJs := do
  let questionEmbedding ← TextToSql.embedCall cfg.embeddingModel question
  let similarSchemas ← mapErr
    (fun e => .textToSql ("Vector search failed: " ++ e.toStr) (some e))
    (Qdrant.search qcfg questionEmbedding 5)
  let schemaContext := String.intercalate "\n\n" (similarSchemas.map (·.content))
  let prompt := buildPrompt schemaContext question
  let text ← TextToSql.completeCall cfg.model prompt (cfg.maxTokens.getD 1000)
    (cfg.temperature.getD (1 / 10))
  fun w =>
    match w.env.jsonParse text with
    | none =>
      (.error (.textToSql "Failed to parse AI response: SyntaxError" (some (.js "SyntaxError"))), w)
    | some JsValue.nullv =>
      (.error (.textToSql "Failed to parse AI response: TypeError" (some (.js "TypeError"))), w)
    | some v =>
      (.ok { sql := v.fieldOf "sql", confidence := v.fieldOf "confidence",
             explanation := v.fieldOf "explanation" }, w)

/-- The `VectorRecord` built by `trainFromSchema` for a DDL string, with the
embedding the environment returns for it and the metadata
`{type: "schema", timestamp: now}`. -/
def mkRec (env : Env) (embeddingModel now ddl : String) (n : Nat) : VectorRecord :=
  { id := uuidString n
    vector := (env.embedRes embeddingModel ddl).toOption.getD []
    content := ddl
    metadata := [("type", "schema"), ("timestamp", now)] }

/-- `trainFromSchema` from `text-to-sql.ts`: embed the DDL, draw a fresh
`crypto.randomUUID()` id, and upsert a single new `VectorRecord` whose
payload content is the DDL itself; the upsert failure is wrapped as
`TextToSqlError("Failed to store schema: ...")`.  No lookup or
de-duplication of any kind precedes the upsert. -/
def TextToSql.trainFromSchemaImpl (cfg : TextToSqlConfig) (qcfg : QdrantConfig)
    (ddl : String) : EffM Unit := do
  let embedding ← TextToSql.embedCall cfg.embeddingModel ddl
  let vectorId ← freshUuid
  let now ← (fun w => (.ok w.now, w) : EffM String)
  mapErr (fun e => .textToSql ("Failed to store schema: " ++ e.toStr) (some e))
    (Qdrant.upsertVectors qcfg
      [{ id := vectorId, vector := embedding, content := ddl,
         metadata := [("type", "schema"), ("timestamp", now)] }])

/-- `executeQuery` from `text-to-sql.ts`: delegate to the Schema Store's
query operation, wrapping failures as
`TextToSqlError("Query execution failed: ...")`. -/
def TextToSql.executeQueryImpl (sql : String) : EffM (List Row) := do
  let rows ← mapErr (fun e => .textToSql ("Query execution failed: " ++ e.toStr) (some e))
    (Postgres.query sql [])
  pure rows

/-! ## Training orchestrator (`src/train.ts`) -/

/-- The per-table body of `trainFromDatabase`'s `Effect.forEach`: fetch the
table's rendered DDL, then embed-and-store it, each failure wrapped into a
`TrainingError` carrying the cause. -/
def Training.dbStep (cfg : TextToSqlConfig) (qcfg : QdrantConfig) (table : String) : EffM Unit := do
  let ddl ← mapErr (fun e => .training ("Failed to get table schema: " ++ e.toStr) (some e))
    (Postgres.getTableSchema table)
  mapErr (fun e => .training ("Failed to train schema: " ++ e.toStr) (some e))
    (TextToSql.trainFromSchemaImpl cfg qcfg ddl)

/-- `trainFromDatabase` from `src/train.ts`.  Note the source's actual
order: it first introspects the table names (`postgres.getSchema()`), and
only then ensures the vector collection exists at size 1536
(`qdrant.createCollection(1536)`); the per-table loop
(`Effect.forEach`, sequential, in discovery order) runs last. -/
def Training.trainFromDatabase (cfg : TextToSqlConfig) (qcfg : QdrantConfig) : EffM Unit := do
  let tables ← mapErr (fun e => .training ("Failed to get schema: " ++ e.toStr) (some e))
    Postgres.getSchema
  mapErr (fun e => .training ("Failed to create collection: " ++ e.toStr) (some e))
    (Qdrant.createCollection qcfg 1536)
  let _ ← effForEach tables (Training.dbStep cfg qcfg)
  pure ()

/-- `trainFromDdl` from `src/train.ts`: ensure the collection at size 1536,
then embed-and-store the single DDL, each failure wrapped into a
`TrainingError` carrying the cause. -/
def Training.trainFromDdl (cfg : TextToSqlConfig) (qcfg : QdrantConfig) (ddl : String) : EffM Unit := do
  mapErr (fun e => .training ("Failed to create collection: " ++ e.toStr) (some e))
    (Qdrant.createCollection qcfg 1536)
  mapErr (fun e => .training ("Failed to train schema: " ++ e.toStr) (some e))
    (TextToSql.trainFromSchemaImpl cfg qcfg ddl)

/-- The per-element body of `trainFromDdlArray`'s `Effect.forEach`. -/
def Training.ddlStep (cfg : TextToSqlConfig) (qcfg : QdrantConfig) (ddl : String) : EffM Unit :=
  mapErr (fun e => .training ("Failed to train schema: " ++ e.toStr) (some e))
    (TextToSql.trainFromSchemaImpl cfg qcfg ddl)

/-- `trainFromDdlArray` from `src/train.ts`: ensure the collection at size
1536 once, then embed-and-store each DDL sequentially in input order
(`Effect.forEach` with default options). -/
def Training.trainFromDdlArray (cfg : TextToSqlConfig) (qcfg : QdrantConfig) (ddls : List String) : EffM Unit := do
  mapErr (fun e => .training ("Failed to create collection: " ++ e.toStr) (some e))
    (Qdrant.createCollection qcfg 1536)
  let _ ← effForEach ddls (Training.ddlStep cfg qcfg)
  pure ()

/-! ## Query pipeline (`src/services/query-pipeline.ts`) -/

/-- `QueryPipelineConfig` from the source. -/
structure QueryPipelineConfig where
  minConfidence : ℚ
  dryRun : Bool
  maxRetries : Nat

/-- `SqlResult` as consumed by the pipeline through the `TextToSqlService`
interface (the TS type: sql, confidence, explanation). -/
structure SqlResult where
  sql : String
  confidence : ℚ
  explanation : String

/-- `QueryResult` from the source. -/
structure QueryResult where
  question : String
  sql : String
  confidence : ℚ
  explanation : String
  results : List Row
  executionTime : Nat

/-- The `TextToSqlService` interface as the pipeline receives it through
dependency injection (`yield* TextToSqlService`). -/
structure TextToSqlService where
  generateSql : String → EffM SqlResult
  executeQuery : String → EffM (List Row)

/-- A `TextToSqlService` whose `generateSql` is abstracted by the value it
returns.  The service's real `generateSql` (embedded above as
`TextToSql.generateSqlImpl`) performs no Schema Store (`pool.query`) call —
it only touches the LLM provider and the vector index — and the pipeline
consumes it solely through the interface, so for the pipeline-level claims
its invocation is recorded as `Call.genSql` and its outcome supplied by the
oracle `gen`.  `executeQuery` is the service's real one. -/
def mkTextToSql (gen : String → Except Err SqlResult) : TextToSqlService where
  generateSql := fun q => fun w =>
    (gen q, { w with trace := w.trace ++ [Call.genSql q] })
  executeQuery := TextToSql.executeQueryImpl

/-- `validateSql` from `query-pipeline.ts`: issue `EXPLAIN ${sql}` against
the Schema Store, mapping a failure to
`QueryPipelineError("SQL validation failed: ...")`, and return `true`.

The source wraps the `yield*` in a JS `try/catch` whose `catch` branch
`return false`s — but under `Effect.gen` semantics a failed yielded effect
short-circuits the generator without throwing into it, so that `catch` is
dead code and the failure propagates.  This embedding reproduces the actual
behaviour; see the C3 theorems. -/
def QueryPipeline.validateSql (sql : String) : EffM Bool := do
  let _ ← mapErr (fun e => .queryPipeline ("SQL validation failed: " ++ e.toStr) (some e))
    (Postgres.query ("EXPLAIN " ++ sql) [])
  pure true

/-- Read `Date.now()`. -/
def readClock : EffM Nat := fun w => (.ok w.clock, w)

/-- `askQuestion` from `query-pipeline.ts`: generate a candidate (failures
wrapped), reject with a terminal `QueryPipelineError` when
`confidence < minConfidence`, validate via `validateSql`, then either skip
execution (`dryRun`, `results = []`) or execute through the service's
`executeQuery` (failures wrapped), and return the composed `QueryResult`. -/
def QueryPipeline.askQuestion (tts : TextToSqlService) (config : QueryPipelineConfig)
    (question : String) : EffM QueryResult := do
  let startTime ← readClock
  let sqlResult ← mapErr (fun e => .queryPipeline ("SQL generation failed: " ++ e.toStr) (some e))
    (tts.generateSql question)
  if sqlResult.confidence < config.minConfidence then
    failE (.queryPipeline ("Generated SQL has low confidence: " ++ ratStr sqlResult.confidence ++
      ". Minimum required: " ++ ratStr config.minConfidence) none)
  else do
    let isValid ← QueryPipeline.validateSql sqlResult.sql
    if !isValid then
      failE (.queryPipeline ("Generated SQL is invalid: " ++ sqlResult.sql) none)
    else do
      let results ← if config.dryRun then pure ([] : List Row)
        else (mapErr (fun e => .queryPipeline ("Query execution failed: " ++ e.toStr) (some e))
          (tts.executeQuery sqlResult.sql))
      let endTime ← readClock
      pure { question := question, sql := sqlResult.sql, confidence := sqlResult.confidence,
             explanation := sqlResult.explanation, results := results,
             executionTime := endTime - startTime }

/-! ## Concrete worlds used by witnesses and counterexamples -/

/-- An all-succeeding collaborator environment for concrete runs. -/
def envOk : Env where
  pool := fun _ _ => .ok []
  embedRes := fun _ _ => .ok [1]
  completeRes := fun _ _ _ _ => .ok "txt"
  jsonParse := fun _ => none
  getCollectionsFail := none
  createFail := none
  upsertFail := none
  searchRes := fun _ _ => .ok []

/-- An initial world over `envOk`: no collections, no points, empty trace. -/
def w0 : World where
  env := envOk
  collections := []
  points := []
  trace := []
  nextId := 0
  now := "2024-01-01T00:00:00.000Z"
  clock := 0

/-! ## C1: the confidence gate precedes every execution call -/

/-- C1: for every question and every `PipelineConfig`, if the candidate
returned by `generateSql` has confidence strictly below `minConfidence`,
then `askQuestion` fails with a `QueryPipelineError` (with no cause: the
terminal low-confidence rejection) and no call whatsoever is made to the
Schema Store's execute path (`pool.query`) for that request — in particular
neither `executeQuery` nor even the validation `EXPLAIN` runs. -/
theorem C1_confidence_gate (gen : String → Except Err SqlResult)
    (config : QueryPipelineConfig) (question : String) (w : World) (r : SqlResult)
    (hgen : gen question = .ok r) (hconf : r.confidence < config.minConfidence) :
    ∃ m w', QueryPipeline.askQuestion (mkTextToSql gen) config question w =
        (.error (.queryPipeline m none), w') ∧
      pgCalls w'.trace = pgCalls w.trace := by
  refine ⟨"Generated SQL has low confidence: " ++ ratStr r.confidence ++
      ". Minimum required: " ++ ratStr config.minConfidence,
    { w with trace := w.trace ++ [Call.genSql question] }, ?_, ?_⟩
  · simp only [QueryPipeline.askQuestion, readClock, mkTextToSql, EffM.run_bind,
      EffM.run_mapErr, hgen, if_pos hconf, failE]
  · simp [pgCalls, List.filterMap_append]

/-- Witness for C1 at a concrete input: confidence 3/10 against a gate of
7/10. -/
theorem C1_confidence_gate_witness :
    ∃ m w', QueryPipeline.askQuestion
        (mkTextToSql (fun _ => .ok ⟨"SELECT 1", 3 / 10, "e"⟩))
        ⟨7 / 10, false, 3⟩ "q" w0 =
        (.error (.queryPipeline m none), w') ∧
      pgCalls w'.trace = pgCalls w0.trace :=
  C1_confidence_gate _ _ _ _ _ rfl (by norm_num)

/-! ## C2: dry-run purity -/

/-- C2: for every question, when `dryRun` is true and the candidate passes
the confidence gate and validation (the `EXPLAIN` succeeds), `askQuestion`
returns a `QueryResult` whose `results` is the empty sequence, and the
requests to the Schema Store's execute path are exactly the single
validation `EXPLAIN` — `executeQuery` is never invoked. -/
theorem C2_dry_run (gen : String → Except Err SqlResult)
    (config : QueryPipelineConfig) (question : String) (w : World) (r : SqlResult)
    (rows : List Row)
    (hgen : gen question = .ok r) (hconf : ¬ r.confidence < config.minConfidence)
    (hdry : config.dryRun = true)
    (hexp : w.env.pool ("EXPLAIN " ++ r.sql) [] = .ok rows) :
    ∃ w', QueryPipeline.askQuestion (mkTextToSql gen) config question w =
        (.ok { question := question, sql := r.sql, confidence := r.confidence,
               explanation := r.explanation, results := [],
               executionTime := w.clock - w.clock }, w') ∧
      pgCalls w'.trace = pgCalls w.trace ++ [("EXPLAIN " ++ r.sql, [])] := by
  refine ⟨{ w with trace := w.trace ++
      [Call.genSql question, Call.pgQuery ("EXPLAIN " ++ r.sql) []] }, ?_, ?_⟩
  · simp only [QueryPipeline.askQuestion, QueryPipeline.validateSql, readClock,
      mkTextToSql, Postgres.query, EffM.run_bind, EffM.run_mapErr, EffM.run_pure,
      hgen, if_neg hconf, hdry, hexp, Bool.not_true, if_true, if_false,
      List.append_assoc, List.cons_append, List.nil_append]
    rfl
  · simp [pgCalls, List.filterMap_append]

/-- Witness for C2 at a concrete input: confidence 85/100 against a gate of
7/10, `dryRun = true`. -/
theorem C2_dry_run_witness :
    ∃ w', QueryPipeline.askQuestion
        (mkTextToSql (fun _ => .ok ⟨"SELECT * FROM orders", 85 / 100, "e"⟩))
        ⟨7 / 10, true, 3⟩ "q" w0 =
        (.ok { question := "q", sql := "SELECT * FROM orders", confidence := 85 / 100,
               explanation := "e", results := [],
               executionTime := w0.clock - w0.clock }, w') ∧
      pgCalls w'.trace = pgCalls w0.trace ++ [("EXPLAIN SELECT * FROM orders", [])] := by
  have h := C2_dry_run (fun _ => .ok ⟨"SELECT * FROM orders", 85 / 100, "e"⟩)
    ⟨7 / 10, true, 3⟩ "q" w0 ⟨"SELECT * FROM orders", 85 / 100, "e"⟩ []
    rfl (by norm_num) rfl rfl
  simpa using h

/-! ## C3: `validateSql` propagates explain failures instead of returning
`false` -/

/-- A world whose Schema Store rejects every query — in particular the
`EXPLAIN` of the SQL string below — with a missing-relation error. -/
def wBadSql : World :=
  { w0 with
    env := { envOk with
      pool := fun _ _ => .error "error: relation \"missing_table\" does not exist" } }

/-- The error `validateSql` actually produces at that input: the
`QueryPipelineError` built by the `Effect.mapError` on the explain call,
wrapping the `PostgresError` cause. -/
def errC3 : Err :=
  .queryPipeline
    "SQL validation failed: PostgresError: Query failed: error: relation \"missing_table\" does not exist"
    (some (.pg "Query failed: error: relation \"missing_table\" does not exist"
      (some (.js "error: relation \"missing_table\" does not exist"))))

/-- C3, divergence of the code from the claim: at a SQL string whose explain
call fails, `validateSql` does not return `false` — it fails with a
`QueryPipelineError` (`errC3`).  The JS `try/catch` in the source that was
meant to turn the failure into `false` is dead code, because `Effect.gen`
short-circuits on a failed yielded effect without throwing into the
generator body.  When the explain call succeeds it does return `true`
(second conjunct). -/
theorem C3_validateSql_propagates :
    (QueryPipeline.validateSql "SELECT * FROM missing_table" wBadSql).1 =
        .error errC3 ∧
    (QueryPipeline.validateSql "SELECT * FROM missing_table" wBadSql).2.trace =
        [Call.pgQuery "EXPLAIN SELECT * FROM missing_table" []] ∧
    (QueryPipeline.validateSql "SELECT 1" w0).1 = .ok true :=
  ⟨rfl, rfl, rfl⟩

/-! ## C4: `upsertVectors` performs no dimension check -/

/-- The Qdrant configuration of the reference setup. -/
def qcfgW : QdrantConfig := ⟨"http://localhost:6333", none, "sql_schemas"⟩

/-- A world whose collection `sql_schemas` exists with declared size 1536. -/
def wC4 : World := { w0 with collections := [("sql_schemas", 1536)] }

/-- A record whose vector length (2) differs from the declared size 1536. -/
def badRec : VectorRecord := ⟨"r1", [1, 2], "c", []⟩

/-- C4, counterexample to the claim as stated: upserting a `VectorRecord`
whose vector length differs from the collection's declared size (1536) does
not fail before any network call — `upsertVectors` succeeds, the upsert
network call is made carrying exactly the mismatched record, and the record
is stored unchanged (no truncation or padding). -/
theorem C4_no_dimension_check_counterexample :
    (Qdrant.upsertVectors qcfgW [badRec] wC4).1 = .ok () ∧
    (Qdrant.upsertVectors qcfgW [badRec] wC4).2.trace =
        [Call.qdrantUpsert "sql_schemas" [badRec]] ∧
    (Qdrant.upsertVectors qcfgW [badRec] wC4).2.points = [badRec] ∧
    badRec.vector.length ≠ 1536 ∧
    wC4.collections = [("sql_schemas", 1536)] :=
  ⟨rfl, rfl, rfl, by decide, rfl⟩

/-- C4 amended: `upsertVectors` performs no dimension check at all.  For
every batch of records — whatever their vector lengths, and whatever the
collection's declared size — it issues exactly one upsert network call
forwarding the records unchanged (never truncated or padded), and when the
Vector Index accepts the call it succeeds with the records stored as given;
a dimension mismatch can only be rejected by the Vector Index server itself,
after the network call. -/
theorem C4_upsert_forwards_unchanged (qcfg : QdrantConfig)
    (vectors : List VectorRecord) (w : World)
    (hok : w.env.upsertFail = none) :
    Qdrant.upsertVectors qcfg vectors w =
      (.ok (), { w with
        trace := w.trace ++ [Call.qdrantUpsert qcfg.collectionName vectors],
        points := upsertPoints w.points vectors }) := by
  simp only [Qdrant.upsertVectors, hok]

/-- Witness for C4's amended theorem at the concrete mismatched record. -/
theorem C4_upsert_forwards_unchanged_witness :
    Qdrant.upsertVectors qcfgW [badRec] wC4 =
      (.ok (), { wC4 with
        trace := wC4.trace ++ [Call.qdrantUpsert qcfgW.collectionName [badRec]],
        points := upsertPoints wC4.points [badRec] }) :=
  C4_upsert_forwards_unchanged qcfgW [badRec] wC4 rfl

/-! ## C10: `createCollection` checks only the name, never the dimension -/

/-- C10: whenever a collection with the configured name already exists —
with any declared vector size, matching the requested one or not —
`createCollection` succeeds, issues only the `getCollections` listing call
(no create call), and leaves the world unchanged apart from that trace
entry: only the collection name is ever compared. -/
theorem C10_existing_collection_skips_create (qcfg : QdrantConfig)
    (vectorSize : Nat) (w : World)
    (hok : w.env.getCollectionsFail = none)
    (hex : w.collections.any (fun col => col.1 == qcfg.collectionName) = true) :
    Qdrant.createCollection qcfg vectorSize w =
      (.ok (), { w with trace := w.trace ++ [Call.qdrantGetCollections] }) := by
  simp only [Qdrant.createCollection, hok, hex, if_true]

/-- Witness for C10: the existing collection has declared size 512, the
request asks for 1536, and the call still succeeds without a create call. -/
theorem C10_existing_collection_skips_create_witness :
    Qdrant.createCollection qcfgW 1536
        { w0 with collections := [("sql_schemas", 512)] } =
      (.ok (), { { w0 with collections := [("sql_schemas", 512)] } with
        trace := w0.trace ++ [Call.qdrantGetCollections] }) ∧
    (512 : Nat) ≠ 1536 :=
  ⟨C10_existing_collection_skips_create qcfgW 1536 _ rfl (by decide), by decide⟩

/-- Distinct counters yield distinct uuids. -/
theorem uuidString_injective : Function.Injective uuidString := by
  intro m n h
  have hdata := congrArg String.data h
  simp only [uuidString, String.data_append] at hdata
  have hrep := List.append_cancel_left hdata
  have hlen := congrArg List.length hrep
  simpa using hlen

/-! ## Evaluation lemmas for `trainFromSchema` and the training loops -/

/-- Evaluation of one successful `trainFromSchema`: one embed call, one
upsert call carrying the single fresh record, the freshness counter
advanced by one. -/
theorem trainFromSchemaImpl_ok (cfg : TextToSqlConfig) (qcfg : QdrantConfig)
    (ddl : String) (w : World) (v : List ℚ)
    (hemb : w.env.embedRes cfg.embeddingModel ddl = .ok v)
    (hup : w.env.upsertFail = none) :
    TextToSql.trainFromSchemaImpl cfg qcfg ddl w =
      (.ok (), { w with
        trace := w.trace ++ [Call.llmEmbed cfg.embeddingModel ddl,
          Call.qdrantUpsert qcfg.collectionName
            [mkRec w.env cfg.embeddingModel w.now ddl w.nextId]],
        points := upsertPoints w.points
          [mkRec w.env cfg.embeddingModel w.now ddl w.nextId],
        nextId := w.nextId + 1 }) := by
  simp only [TextToSql.trainFromSchemaImpl, TextToSql.embedCall, freshUuid,
    Qdrant.upsertVectors, mkRec, EffM.run_bind, EffM.run_mapErr, hemb, hup,
    Except.toOption, Option.getD, List.append_assoc, List.cons_append,
    List.nil_append]

/-- The trace left by a successful run of the embed-and-store loop over a
list of DDLs, starting at freshness counter `n`: for each DDL, in input
order, one embed call followed by one upsert call of its single record. -/
def trainEvents (env : Env) (embeddingModel collName now : String) :
    List String → Nat → List Call
  | [], _ => []
  | d :: ds, n =>
    Call.llmEmbed embeddingModel d ::
    Call.qdrantUpsert collName [mkRec env embeddingModel now d n] ::
    trainEvents env embeddingModel collName now ds (n + 1)

/-- The point store after a successful run of the embed-and-store loop. -/
def trainPoints (env : Env) (embeddingModel now : String)
    (pts : List VectorRecord) : List String → Nat → List VectorRecord
  | [], _ => pts
  | d :: ds, n =>
    trainPoints env embeddingModel now
      (upsertPoints pts [mkRec env embeddingModel now d n]) ds (n + 1)

/-- Evaluation of a fully successful `Effect.forEach` over
`trainFromSchema` (the body of `trainFromDdlArray`): sequential, in input
order, one embed-and-store per element. -/
theorem effForEach_ddlStep_ok (cfg : TextToSqlConfig) (qcfg : QdrantConfig) :
    ∀ (ddls : List String) (w : World),
      (∀ d ∈ ddls, ∃ v, w.env.embedRes cfg.embeddingModel d = .ok v) →
      w.env.upsertFail = none →
      ∃ bs, effForEach ddls (Training.ddlStep cfg qcfg) w =
        (.ok bs, { w with
          trace := w.trace ++ trainEvents w.env cfg.embeddingModel
            qcfg.collectionName w.now ddls w.nextId,
          points := trainPoints w.env cfg.embeddingModel w.now
            w.points ddls w.nextId,
          nextId := w.nextId + ddls.length })
  | [], w, _, _ => ⟨[], by simp [effForEach, trainEvents, trainPoints, EffM.run_pure]⟩
  | d :: ds, w, hemb, hup => by
    obtain ⟨v, hv⟩ := hemb d (List.mem_cons_self d ds)
    have hstep := trainFromSchemaImpl_ok cfg qcfg d w v hv hup
    obtain ⟨bs, hbs⟩ := effForEach_ddlStep_ok cfg qcfg ds
      { w with
        trace := w.trace ++ [Call.llmEmbed cfg.embeddingModel d,
          Call.qdrantUpsert qcfg.collectionName
            [mkRec w.env cfg.embeddingModel w.now d w.nextId]],
        points := upsertPoints w.points
          [mkRec w.env cfg.embeddingModel w.now d w.nextId],
        nextId := w.nextId + 1 }
      (fun x hx => hemb x (List.mem_cons_of_mem d hx)) hup
    refine ⟨() :: bs, ?_⟩
    simp only [effForEach, Training.ddlStep, EffM.run_bind, EffM.run_mapErr,
      hstep, hbs, EffM.run_pure, trainEvents, trainPoints, List.length_cons,
      List.append_assoc, List.cons_append, List.nil_append]
    congr 2
    omega

/-- The trace left by a successful `createCollection`: the listing call,
plus the create call exactly when no collection with the configured name
exists. -/
def ensureEvents (cols : List (String × Nat)) (name : String) (size : Nat) : List Call :=
  if cols.any (fun col => col.1 == name) then [Call.qdrantGetCollections]
  else [Call.qdrantGetCollections, Call.qdrantCreateCollection name size]

/-- The server's collections after a successful `createCollection`. -/
def ensureCollections (cols : List (String × Nat)) (name : String) (size : Nat) :
    List (String × Nat) :=
  if cols.any (fun col => col.1 == name) then cols
  else cols ++ [(name, size)]

/-- Evaluation of a successful `createCollection` (both branches). -/
theorem createCollection_ok (qcfg : QdrantConfig) (size : Nat) (w : World)
    (h1 : w.env.getCollectionsFail = none) (h2 : w.env.createFail = none) :
    Qdrant.createCollection qcfg size w =
      (.ok (), { w with
        trace := w.trace ++ ensureEvents w.collections qcfg.collectionName size,
        collections := ensureCollections w.collections qcfg.collectionName size }) := by
  by_cases hc : w.collections.any (fun col => col.1 == qcfg.collectionName) = true
  · simp [Qdrant.createCollection, ensureEvents, ensureCollections, h1, h2, hc]
  · simp only [Bool.not_eq_true] at hc
    simp [Qdrant.createCollection, ensureEvents, ensureCollections, h1, h2, hc]

/-- `ensureCalls` distributes over append. -/
theorem ensureCalls_append (s t : List Call) :
    ensureCalls (s ++ t) = ensureCalls s ++ ensureCalls t :=
  List.filter_append _ _

/-- `embedTexts` distributes over append. -/
theorem embedTexts_append (s t : List Call) :
    embedTexts (s ++ t) = embedTexts s ++ embedTexts t :=
  List.filterMap_append _ _ _

/-- `pgCalls` distributes over append. -/
theorem pgCalls_append (s t : List Call) :
    pgCalls (s ++ t) = pgCalls s ++ pgCalls t :=
  List.filterMap_append _ _ _

/-- A successful ensure-collection records exactly one listing call. -/
theorem ensureCalls_ensureEvents (cols : List (String × Nat)) (name : String) (size : Nat) :
    ensureCalls (ensureEvents cols name size) = [Call.qdrantGetCollections] := by
  unfold ensureEvents
  split <;> rfl

/-- The ensure-collection step makes no embed call. -/
theorem embedTexts_ensureEvents (cols : List (String × Nat)) (name : String) (size : Nat) :
    embedTexts (ensureEvents cols name size) = [] := by
  unfold ensureEvents
  split <;> rfl

/-- The embed-and-store loop makes no collection-listing call. -/
theorem ensureCalls_trainEvents (env : Env) (m c now : String) :
    ∀ (ds : List String) (n : Nat), ensureCalls (trainEvents env m c now ds n) = []
  | [], _ => rfl
  | d :: ds, n => by
    have ih := ensureCalls_trainEvents env m c now ds (n + 1)
    simpa [trainEvents, ensureCalls, List.filter_cons] using ih

/-- The embed-and-store loop embeds exactly the input DDLs, in input order. -/
theorem embedTexts_trainEvents (env : Env) (m c now : String) :
    ∀ (ds : List String) (n : Nat), embedTexts (trainEvents env m c now ds n) = ds
  | [], _ => rfl
  | d :: ds, n => by
    simp [trainEvents, embedTexts] at *
    exact embedTexts_trainEvents env m c now ds (n + 1)

/-! ## C6: `trainFromDdlArray` — one ensure, one embed-and-store per element,
in order -/

/-- C6: for every sequence of DDL strings, a successful `trainFromDdlArray`
calls the ensure-collection operation exactly once (one `getCollections`
listing, whatever the sequence's length) and runs the embed-and-store step
exactly once per element, sequentially, in input order: the whole trace it
appends is the ensure-collection step followed by `trainEvents`, whose
embed calls are exactly `ddls` in order. -/
theorem C6_ddl_array_order (cfg : TextToSqlConfig) (qcfg : QdrantConfig)
    (ddls : List String) (w : World)
    (h1 : w.env.getCollectionsFail = none) (h2 : w.env.createFail = none)
    (hemb : ∀ d ∈ ddls, ∃ v, w.env.embedRes cfg.embeddingModel d = .ok v)
    (hup : w.env.upsertFail = none) :
    ∃ w', Training.trainFromDdlArray cfg qcfg ddls w = (.ok (), w') ∧
      w'.trace = w.trace ++ ensureEvents w.collections qcfg.collectionName 1536 ++
        trainEvents w.env cfg.embeddingModel qcfg.collectionName w.now ddls w.nextId ∧
      ensureCalls w'.trace = ensureCalls w.trace ++ [Call.qdrantGetCollections] ∧
      embedTexts w'.trace = embedTexts w.trace ++ ddls := by
  have hcc := createCollection_ok qcfg 1536 w h1 h2
  obtain ⟨bs, hloop⟩ := effForEach_ddlStep_ok cfg qcfg ddls
    { w with
      trace := w.trace ++ ensureEvents w.collections qcfg.collectionName 1536,
      collections := ensureCollections w.collections qcfg.collectionName 1536 }
    hemb hup
  refine ⟨{ w with
      collections := ensureCollections w.collections qcfg.collectionName 1536,
      points := trainPoints w.env cfg.embeddingModel w.now w.points ddls w.nextId,
      trace := w.trace ++ ensureEvents w.collections qcfg.collectionName 1536 ++
        trainEvents w.env cfg.embeddingModel qcfg.collectionName w.now ddls w.nextId,
      nextId := w.nextId + ddls.length }, ?_, ?_, ?_, ?_⟩
  · simp only [Training.trainFromDdlArray, EffM.run_bind, EffM.run_mapErr,
      hcc, hloop, EffM.run_pure, List.append_assoc]
  · simp [List.append_assoc]
  · simp [ensureCalls_append, ensureCalls_ensureEvents, ensureCalls_trainEvents]
  · simp [embedTexts_append, embedTexts_ensureEvents, embedTexts_trainEvents]

/-- Witness for C6 at a concrete two-element batch over `w0`. -/
theorem C6_ddl_array_order_witness :
    ∃ w', Training.trainFromDdlArray ⟨"gpt-4", "emb", none, none⟩ qcfgW
        ["ddl-a", "ddl-b"] w0 = (.ok (), w') ∧
      w'.trace = w0.trace ++ ensureEvents w0.collections qcfgW.collectionName 1536 ++
        trainEvents w0.env "emb" qcfgW.collectionName w0.now
          ["ddl-a", "ddl-b"] w0.nextId ∧
      ensureCalls w'.trace = ensureCalls w0.trace ++ [Call.qdrantGetCollections] ∧
      embedTexts w'.trace = embedTexts w0.trace ++ ["ddl-a", "ddl-b"] :=
  C6_ddl_array_order ⟨"gpt-4", "emb", none, none⟩ qcfgW ["ddl-a", "ddl-b"] w0
    rfl rfl (fun _ _ => ⟨[1], rfl⟩) rfl

/-- Upserting a single record whose id is not yet stored appends it:
nothing is replaced. -/
theorem upsertPoints_fresh (pts : List VectorRecord) (p : VectorRecord)
    (h : ∀ r ∈ pts, r.id ≠ p.id) : upsertPoints pts [p] = pts ++ [p] := by
  have hany : pts.any (fun q => q.id == p.id) = false := by
    rw [List.any_eq_false]
    intro q hq
    simpa using h q hq
  simp [upsertPoints, upsertOne, hany]

/-! ## C9: `trainFromSchema` is not idempotent -/

/-- C9: for every DDL string, running `trainFromSchema` twice on it stores
two new `VectorRecord`s: each call draws a fresh id, so the second call
appends a second record rather than updating the first — the store grows by
2, not 1, and the two new records have different ids (their contents, both
equal to the DDL, are duplicates).  The freshness hypotheses say the two
ids about to be drawn are not already present in the store. -/
theorem C9_not_idempotent (cfg : TextToSqlConfig) (qcfg : QdrantConfig)
    (ddl : String) (w : World) (v : List ℚ)
    (hemb : w.env.embedRes cfg.embeddingModel ddl = .ok v)
    (hup : w.env.upsertFail = none)
    (hf1 : ∀ r ∈ w.points, r.id ≠ uuidString w.nextId)
    (hf2 : ∀ r ∈ w.points, r.id ≠ uuidString (w.nextId + 1)) :
    ∃ w', (TextToSql.trainFromSchemaImpl cfg qcfg ddl >>=
        fun _ => TextToSql.trainFromSchemaImpl cfg qcfg ddl) w = (.ok (), w') ∧
      w'.points = w.points ++
        [mkRec w.env cfg.embeddingModel w.now ddl w.nextId,
         mkRec w.env cfg.embeddingModel w.now ddl (w.nextId + 1)] ∧
      w'.points.length = w.points.length + 2 ∧
      (mkRec w.env cfg.embeddingModel w.now ddl w.nextId).id ≠
        (mkRec w.env cfg.embeddingModel w.now ddl (w.nextId + 1)).id := by
  have hne : uuidString w.nextId ≠ uuidString (w.nextId + 1) := by
    intro h
    have := uuidString_injective h
    omega
  have h1 := trainFromSchemaImpl_ok cfg qcfg ddl w v hemb hup
  have h2 := trainFromSchemaImpl_ok cfg qcfg ddl
    { w with
      trace := w.trace ++ [Call.llmEmbed cfg.embeddingModel ddl,
        Call.qdrantUpsert qcfg.collectionName
          [mkRec w.env cfg.embeddingModel w.now ddl w.nextId]],
      points := upsertPoints w.points
        [mkRec w.env cfg.embeddingModel w.now ddl w.nextId],
      nextId := w.nextId + 1 } v hemb hup
  have hp1 : upsertPoints w.points
      [mkRec w.env cfg.embeddingModel w.now ddl w.nextId] =
      w.points ++ [mkRec w.env cfg.embeddingModel w.now ddl w.nextId] :=
    upsertPoints_fresh _ _ (fun r hr => hf1 r hr)
  have hp2 : upsertPoints
      (w.points ++ [mkRec w.env cfg.embeddingModel w.now ddl w.nextId])
      [mkRec w.env cfg.embeddingModel w.now ddl (w.nextId + 1)] =
      (w.points ++ [mkRec w.env cfg.embeddingModel w.now ddl w.nextId]) ++
        [mkRec w.env cfg.embeddingModel w.now ddl (w.nextId + 1)] := by
    refine upsertPoints_fresh _ _ ?_
    intro r hr
    rcases List.mem_append.mp hr with hl | hl
    · exact hf2 r hl
    · simp only [List.mem_singleton] at hl
      subst hl
      exact hne
  refine ⟨{ w with
      points := upsertPoints (upsertPoints w.points
        [mkRec w.env cfg.embeddingModel w.now ddl w.nextId])
        [mkRec w.env cfg.embeddingModel w.now ddl (w.nextId + 1)],
      trace := (w.trace ++ [Call.llmEmbed cfg.embeddingModel ddl,
        Call.qdrantUpsert qcfg.collectionName
          [mkRec w.env cfg.embeddingModel w.now ddl w.nextId]]) ++
        [Call.llmEmbed cfg.embeddingModel ddl,
        Call.qdrantUpsert qcfg.collectionName
          [mkRec w.env cfg.embeddingModel w.now ddl (w.nextId + 1)]],
      nextId := w.nextId + 1 + 1 }, ?_, ?_, ?_, hne⟩
  · simp only [EffM.run_bind, h1, h2]
  · simp only [hp1, hp2]
    simp
  · simp only [hp1, hp2]
    simp [List.length_append]

/-- Witness for C9 at a concrete input: an empty store, training the same
DDL twice, ending with exactly two distinct records. -/
theorem C9_not_idempotent_witness :
    ∃ w', (TextToSql.trainFromSchemaImpl ⟨"gpt-4", "emb", none, none⟩ qcfgW
          "CREATE TABLE t (id int)" >>=
        fun _ => TextToSql.trainFromSchemaImpl ⟨"gpt-4", "emb", none, none⟩ qcfgW
          "CREATE TABLE t (id int)") w0 = (.ok (), w') ∧
      w'.points = w0.points ++
        [mkRec w0.env "emb" w0.now "CREATE TABLE t (id int)" w0.nextId,
         mkRec w0.env "emb" w0.now "CREATE TABLE t (id int)" (w0.nextId + 1)] ∧
      w'.points.length = w0.points.length + 2 ∧
      (mkRec w0.env "emb" w0.now "CREATE TABLE t (id int)" w0.nextId).id ≠
        (mkRec w0.env "emb" w0.now "CREATE TABLE t (id int)" (w0.nextId + 1)).id :=
  C9_not_idempotent ⟨"gpt-4", "emb", none, none⟩ qcfgW "CREATE TABLE t (id int)"
    w0 [1] rfl rfl
    (fun r hr => (List.not_mem_nil r hr).elim)
    (fun r hr => (List.not_mem_nil r hr).elim)

/-! ## C5: `trainFromDatabase` — actual step order and empty discovery -/

/-- The table names `getSchema` extracts from the listing rows. -/
def tableNames (rows : List Row) : List String :=
  rows.map fun row => (row.lookup "table_name").getD "undefined"

/-- Evaluation of a successful `getSchema`: one listing query. -/
theorem getSchema_ok (w : World) (rows : List Row)
    (h : w.env.pool listTablesSql [] = .ok rows) :
    Postgres.getSchema w = (.ok (tableNames rows),
      { w with trace := w.trace ++ [Call.pgQuery listTablesSql []] }) := by
  simp only [Postgres.getSchema, Postgres.query, tableNames, EffM.run_bind,
    EffM.run_pure, h]

/-- The DDL string `getTableSchema` renders for a table, given the
environment's response to the column query. -/
def ddlOfTable (env : Env) (t : String) : String :=
  match env.pool columnsSql [t] with
  | .ok rows => "CREATE TABLE " ++ t ++ " (" ++
      String.intercalate ", " (rows.map renderColumn) ++ ")"
  | .error _ => ""

/-- Evaluation of a successful `getTableSchema`: one column query. -/
theorem getTableSchema_ok (w : World) (t : String) (rows : List Row)
    (h : w.env.pool columnsSql [t] = .ok rows) :
    Postgres.getTableSchema t w = (.ok (ddlOfTable w.env t),
      { w with trace := w.trace ++ [Call.pgQuery columnsSql [t]] }) := by
  simp only [Postgres.getTableSchema, Postgres.query, ddlOfTable, EffM.run_bind,
    EffM.run_pure, h]

/-- The trace of a successful per-table training loop: for each table, in
discovery order, one column query, one embed call, one upsert call. -/
def dbTrainEvents (env : Env) (embeddingModel collName now : String) :
    List String → Nat → List Call
  | [], _ => []
  | t :: ts, n =>
    Call.pgQuery columnsSql [t] ::
    Call.llmEmbed embeddingModel (ddlOfTable env t) ::
    Call.qdrantUpsert collName
      [mkRec env embeddingModel now (ddlOfTable env t) n] ::
    dbTrainEvents env embeddingModel collName now ts (n + 1)

/-- The point store after a successful per-table training loop. -/
def dbTrainPoints (env : Env) (embeddingModel now : String)
    (pts : List VectorRecord) : List String → Nat → List VectorRecord
  | [], _ => pts
  | t :: ts, n =>
    dbTrainPoints env embeddingModel now
      (upsertPoints pts [mkRec env embeddingModel now (ddlOfTable env t) n])
      ts (n + 1)

/-- Evaluation of a fully successful per-table loop of `trainFromDatabase`. -/
theorem effForEach_dbStep_ok (cfg : TextToSqlConfig) (qcfg : QdrantConfig) :
    ∀ (tables : List String) (w : World),
      (∀ t ∈ tables, ∃ rs, w.env.pool columnsSql [t] = .ok rs) →
      (∀ t ∈ tables, ∃ v,
        w.env.embedRes cfg.embeddingModel (ddlOfTable w.env t) = .ok v) →
      w.env.upsertFail = none →
      ∃ bs, effForEach tables (Training.dbStep cfg qcfg) w =
        (.ok bs, { w with
          trace := w.trace ++ dbTrainEvents w.env cfg.embeddingModel
            qcfg.collectionName w.now tables w.nextId,
          points := dbTrainPoints w.env cfg.embeddingModel w.now
            w.points tables w.nextId,
          nextId := w.nextId + tables.length })
  | [], w, _, _, _ =>
      ⟨[], by simp [effForEach, dbTrainEvents, dbTrainPoints, EffM.run_pure]⟩
  | t :: ts, w, hcols, hemb, hup => by
    obtain ⟨rs, hrs⟩ := hcols t (List.mem_cons_self t ts)
    obtain ⟨v, hv⟩ := hemb t (List.mem_cons_self t ts)
    have hddl := getTableSchema_ok w t rs hrs
    have hstep := trainFromSchemaImpl_ok cfg qcfg (ddlOfTable w.env t)
      { w with trace := w.trace ++ [Call.pgQuery columnsSql [t]] } v hv hup
    obtain ⟨bs, hbs⟩ := effForEach_dbStep_ok cfg qcfg ts
      { w with
        trace := w.trace ++ [Call.pgQuery columnsSql [t],
           Call.llmEmbed cfg.embeddingModel (ddlOfTable w.env t),
           Call.qdrantUpsert qcfg.collectionName
             [mkRec w.env cfg.embeddingModel w.now (ddlOfTable w.env t) w.nextId]],
        points := upsertPoints w.points
          [mkRec w.env cfg.embeddingModel w.now (ddlOfTable w.env t) w.nextId],
        nextId := w.nextId + 1 }
      (fun x hx => hcols x (List.mem_cons_of_mem t hx))
      (fun x hx => hemb x (List.mem_cons_of_mem t hx)) hup
    refine ⟨() :: bs, ?_⟩
    simp only [effForEach, Training.dbStep, EffM.run_bind, EffM.run_mapErr,
      hddl, hstep, hbs, EffM.run_pure, dbTrainEvents, dbTrainPoints,
      List.length_cons, List.append_assoc, List.cons_append, List.nil_append]
    congr 2
    omega

/-- C5 amended: `trainFromDatabase` performs its steps in the source's
order — first introspect all table names from the Schema Store, then ensure
the vector collection exists at size 1536, then for each table
(sequentially, in discovery order) fetch its rendered DDL and
embed-and-store it.  When schema discovery returns zero tables the
operation still succeeds, with the collection ensured and no per-table
call (no column query, no embed, no upsert) and no change to the stored
points. -/
theorem C5_trainFromDatabase_order (cfg : TextToSqlConfig) (qcfg : QdrantConfig)
    (w : World) (rows : List Row)
    (hlist : w.env.pool listTablesSql [] = .ok rows)
    (h1 : w.env.getCollectionsFail = none) (h2 : w.env.createFail = none)
    (hcols : ∀ t ∈ tableNames rows, ∃ rs, w.env.pool columnsSql [t] = .ok rs)
    (hemb : ∀ t ∈ tableNames rows, ∃ v,
      w.env.embedRes cfg.embeddingModel (ddlOfTable w.env t) = .ok v)
    (hup : w.env.upsertFail = none) :
    ∃ w', Training.trainFromDatabase cfg qcfg w = (.ok (), w') ∧
      w'.trace = w.trace ++ [Call.pgQuery listTablesSql []] ++
        ensureEvents w.collections qcfg.collectionName 1536 ++
        dbTrainEvents w.env cfg.embeddingModel qcfg.collectionName w.now
          (tableNames rows) w.nextId ∧
      (rows = [] →
        w'.trace = w.trace ++ [Call.pgQuery listTablesSql []] ++
          ensureEvents w.collections qcfg.collectionName 1536 ∧
        w'.points = w.points ∧
        embedTexts w'.trace = embedTexts w.trace) := by
  have hlist' := getSchema_ok w rows hlist
  have hcc := createCollection_ok qcfg 1536
    { w with trace := w.trace ++ [Call.pgQuery listTablesSql []] } h1 h2
  obtain ⟨bs, hloop⟩ := effForEach_dbStep_ok cfg qcfg (tableNames rows)
    { w with
      trace := w.trace ++ [Call.pgQuery listTablesSql []] ++
        ensureEvents w.collections qcfg.collectionName 1536,
      collections := ensureCollections w.collections qcfg.collectionName 1536 }
    hcols hemb hup
  refine ⟨{ w with
      collections := ensureCollections w.collections qcfg.collectionName 1536,
      points := dbTrainPoints w.env cfg.embeddingModel w.now w.points
        (tableNames rows) w.nextId,
      trace := w.trace ++ [Call.pgQuery listTablesSql []] ++
        ensureEvents w.collections qcfg.collectionName 1536 ++
        dbTrainEvents w.env cfg.embeddingModel qcfg.collectionName w.now
          (tableNames rows) w.nextId,
      nextId := w.nextId + (tableNames rows).length }, ?_, rfl, ?_⟩
  · simp only [Training.trainFromDatabase, EffM.run_bind, EffM.run_mapErr,
      hlist', hcc, hloop, EffM.run_pure]
  · intro hrows
    subst hrows
    refine ⟨?_, rfl, ?_⟩
    · simp [tableNames, dbTrainEvents]
    · rw [show dbTrainEvents w.env cfg.embeddingModel qcfg.collectionName w.now
          (tableNames []) w.nextId = [] from rfl, List.append_nil,
        embedTexts_append, embedTexts_append, embedTexts_ensureEvents,
        show embedTexts [Call.pgQuery listTablesSql []] = [] from rfl]
      simp

/-- Witness for C5's amended theorem at a concrete input: a Schema Store
returning zero tables — the run succeeds with no per-table call. -/
theorem C5_trainFromDatabase_order_witness :
    ∃ w', Training.trainFromDatabase ⟨"gpt-4", "emb", none, none⟩ qcfgW w0 =
        (.ok (), w') ∧
      w'.trace = w0.trace ++ [Call.pgQuery listTablesSql []] ++
        ensureEvents w0.collections qcfgW.collectionName 1536 ++
        dbTrainEvents w0.env "emb" qcfgW.collectionName w0.now
          (tableNames []) w0.nextId ∧
      (([] : List Row) = [] →
        w'.trace = w0.trace ++ [Call.pgQuery listTablesSql []] ++
          ensureEvents w0.collections qcfgW.collectionName 1536 ∧
        w'.points = w0.points ∧
        embedTexts w'.trace = embedTexts w0.trace) :=
  C5_trainFromDatabase_order ⟨"gpt-4", "emb", none, none⟩ qcfgW w0 [] rfl rfl rfl
    (fun t ht => (List.not_mem_nil t ht).elim)
    (fun t ht => (List.not_mem_nil t ht).elim) rfl

/-- A Schema Store that reports one table, `users`. -/
def env5 : Env := { envOk with pool := fun _ _ => .ok [[("table_name", "users")]] }

/-- The world of the C5 counterexample. -/
def w5 : World := { w0 with env := env5 }

/-- The DDL `getTableSchema` renders for `users` in that world. -/
def ddl5 : String := "CREATE TABLE users (undefined undefined)"

/-- The concrete run of `trainFromDatabase` in that world. -/
def run5 : Except Err Unit × World :=
  Training.trainFromDatabase ⟨"gpt-4", "emb", none, none⟩ qcfgW w5

set_option maxHeartbeats 2000000 in
/-- C5, counterexample to the claim's step order: the first outbound call of
`trainFromDatabase` is the Schema Store introspection (the table-listing
query), not the ensure-collection call — the collection listing and create
come second and third, after introspection, as the full trace shows.  The
claim's "first ensure the vector collection exists, then introspect" is
therefore false of the code. -/
theorem C5_order_counterexample :
    run5.2.trace.head? = some (Call.pgQuery listTablesSql []) ∧
    run5.2.trace = [Call.pgQuery listTablesSql [],
      Call.qdrantGetCollections,
      Call.qdrantCreateCollection "sql_schemas" 1536,
      Call.pgQuery columnsSql ["users"],
      Call.llmEmbed "emb" ddl5,
      Call.qdrantUpsert "sql_schemas"
        [⟨"uuid-", [1], ddl5,
          [("type", "schema"), ("timestamp", "2024-01-01T00:00:00.000Z")]⟩]] ∧
    run5.1 = .ok () :=
  ⟨rfl, rfl, rfl⟩

/-! ## C7: failure wrapping and abort-on-first-failure -/

/-- Every failure the computation can produce is a `TrainingError` carrying
its original cause. -/
def WrapsTraining (m : EffM α) : Prop :=
  ∀ w e w', m w = (.error e, w') → ∃ s c, e = Err.training s (some c)

/-- `mapErr` with a training-wrapping function yields only wrapped errors. -/
theorem wrapsTraining_mapErr (f : Err → Err) (x : EffM α)
    (hf : ∀ e, ∃ s c, f e = Err.training s (some c)) :
    WrapsTraining (mapErr f x) := by
  intro w e w' h
  rw [EffM.run_mapErr] at h
  rcases hx : x w with ⟨r, w2⟩
  rw [hx] at h
  cases r with
  | ok a => exact absurd h (by simp)
  | error e0 =>
    simp only at h
    have hfe : f e0 = e := by
      have := congrArg Prod.fst h
      simpa using this
    exact hfe ▸ hf e0

/-- `pure` never fails. -/
theorem wrapsTraining_pure (a : α) : WrapsTraining (pure a : EffM α) := by
  intro w e w' h
  exact absurd h (by simp [EffM.run_pure])

/-- `bind` preserves training-wrapping. -/
theorem wrapsTraining_bind (x : EffM α) (f : α → EffM β)
    (hx : WrapsTraining x) (hfa : ∀ a, WrapsTraining (f a)) :
    WrapsTraining (x >>= f) := by
  intro w e w' h
  rw [EffM.run_bind] at h
  rcases hxw : x w with ⟨r, w2⟩
  rw [hxw] at h
  cases r with
  | ok a => exact hfa a w2 e w' h
  | error e0 =>
    simp only at h
    have he : e0 = e := by
      have := congrArg Prod.fst h
      simpa using this
    obtain ⟨s, c, hs⟩ := hx w e0 w2 hxw
    exact ⟨s, c, he ▸ hs⟩

/-- `Effect.forEach` preserves training-wrapping of its body. -/
theorem wrapsTraining_effForEach (f : α → EffM β) (hf : ∀ a, WrapsTraining (f a)) :
    ∀ xs : List α, WrapsTraining (effForEach xs f)
  | [] => wrapsTraining_pure []
  | x :: xs =>
    wrapsTraining_bind (f x) _ (hf x) fun b =>
      wrapsTraining_bind (effForEach xs f) _
        (wrapsTraining_effForEach f hf xs) fun bs =>
          wrapsTraining_pure (b :: bs)

/-- Evaluation of `trainFromSchema` whose embedding call fails: the embed
attempt is traced, nothing is stored, and the wrapped cause surfaces. -/
theorem trainFromSchemaImpl_embedFail (cfg : TextToSqlConfig)
    (qcfg : QdrantConfig) (d : String) (w : World) (m : String)
    (h : w.env.embedRes cfg.embeddingModel d = .error m) :
    TextToSql.trainFromSchemaImpl cfg qcfg d w =
      (.error (.textToSql ("Failed to generate embedding: " ++ m) (some (.js m))),
        { w with trace := w.trace ++ [Call.llmEmbed cfg.embeddingModel d] }) := by
  simp only [TextToSql.trainFromSchemaImpl, TextToSql.embedCall, EffM.run_bind, h]

/-- Evaluation of the embed-and-store loop that fails while processing the
element `bad`: the earlier elements are embedded and stored, the failing
element's embed attempt is traced, and the elements after it are never
touched. -/
theorem effForEach_ddlStep_stop (cfg : TextToSqlConfig) (qcfg : QdrantConfig) :
    ∀ (pre : List String) (bad : String) (post : List String) (w : World)
      (m : String),
      (∀ d ∈ pre, ∃ v, w.env.embedRes cfg.embeddingModel d = .ok v) →
      w.env.embedRes cfg.embeddingModel bad = .error m →
      w.env.upsertFail = none →
      effForEach (pre ++ bad :: post) (Training.ddlStep cfg qcfg) w =
        (.error (.training
            ("Failed to train schema: TextToSqlError: Failed to generate embedding: " ++ m)
            (some (.textToSql ("Failed to generate embedding: " ++ m) (some (.js m))))),
          { w with
            trace := w.trace ++ trainEvents w.env cfg.embeddingModel
                qcfg.collectionName w.now pre w.nextId ++
              [Call.llmEmbed cfg.embeddingModel bad],
            points := trainPoints w.env cfg.embeddingModel w.now w.points pre w.nextId,
            nextId := w.nextId + pre.length })
  | [], bad, post, w, m, _, hbad, _ => by
    have hfail := trainFromSchemaImpl_embedFail cfg qcfg bad w m hbad
    simp only [List.nil_append, effForEach, Training.ddlStep, EffM.run_bind,
      EffM.run_mapErr, hfail, trainEvents, trainPoints, List.append_nil,
      List.length_nil, Err.toStr, Err.errName, Err.message, String.append_assoc]
    rfl
  | d :: ds, bad, post, w, m, hemb, hbad, hup => by
    obtain ⟨v, hv⟩ := hemb d (List.mem_cons_self d ds)
    have hstep := trainFromSchemaImpl_ok cfg qcfg d w v hv hup
    have ih := effForEach_ddlStep_stop cfg qcfg ds bad post
      { w with
        trace := w.trace ++ [Call.llmEmbed cfg.embeddingModel d,
          Call.qdrantUpsert qcfg.collectionName
            [mkRec w.env cfg.embeddingModel w.now d w.nextId]],
        points := upsertPoints w.points
          [mkRec w.env cfg.embeddingModel w.now d w.nextId],
        nextId := w.nextId + 1 }
      m (fun x hx => hemb x (List.mem_cons_of_mem d hx)) hbad hup
    simp only [List.cons_append, effForEach, Training.ddlStep, EffM.run_bind,
      EffM.run_mapErr, hstep, ih, trainEvents, trainPoints, List.length_cons,
      List.append_eq, List.append_assoc, List.nil_append]
    congr 2
    omega

/-- The per-table body of `trainFromDatabase` only fails wrapped. -/
theorem wrapsTraining_dbStep (cfg : TextToSqlConfig) (qcfg : QdrantConfig)
    (t : String) : WrapsTraining (Training.dbStep cfg qcfg t) := by
  apply wrapsTraining_bind
  · exact wrapsTraining_mapErr _ _ (fun e => ⟨_, e, rfl⟩)
  · intro ddl
    exact wrapsTraining_mapErr _ _ (fun e => ⟨_, e, rfl⟩)

/-- The per-element body of `trainFromDdlArray` only fails wrapped. -/
theorem wrapsTraining_ddlStep (cfg : TextToSqlConfig) (qcfg : QdrantConfig)
    (d : String) : WrapsTraining (Training.ddlStep cfg qcfg d) :=
  wrapsTraining_mapErr _ _ (fun e => ⟨_, e, rfl⟩)

/-- `trainFromDatabase` only fails wrapped. -/
theorem wrapsTraining_trainFromDatabase (cfg : TextToSqlConfig)
    (qcfg : QdrantConfig) : WrapsTraining (Training.trainFromDatabase cfg qcfg) := by
  apply wrapsTraining_bind
  · exact wrapsTraining_mapErr _ _ (fun e => ⟨_, e, rfl⟩)
  · intro tables
    apply wrapsTraining_bind
    · exact wrapsTraining_mapErr _ _ (fun e => ⟨_, e, rfl⟩)
    · intro _
      apply wrapsTraining_bind
      · exact wrapsTraining_effForEach _ (wrapsTraining_dbStep cfg qcfg) tables
      · intro _
        exact wrapsTraining_pure ()

/-- `trainFromDdl` only fails wrapped. -/
theorem wrapsTraining_trainFromDdl (cfg : TextToSqlConfig) (qcfg : QdrantConfig)
    (ddl : String) : WrapsTraining (Training.trainFromDdl cfg qcfg ddl) := by
  apply wrapsTraining_bind
  · exact wrapsTraining_mapErr _ _ (fun e => ⟨_, e, rfl⟩)
  · intro _
    exact wrapsTraining_mapErr _ _ (fun e => ⟨_, e, rfl⟩)

/-- `trainFromDdlArray` only fails wrapped. -/
theorem wrapsTraining_trainFromDdlArray (cfg : TextToSqlConfig)
    (qcfg : QdrantConfig) (ddls : List String) :
    WrapsTraining (Training.trainFromDdlArray cfg qcfg ddls) := by
  apply wrapsTraining_bind
  · exact wrapsTraining_mapErr _ _ (fun e => ⟨_, e, rfl⟩)
  · intro _
    apply wrapsTraining_bind
    · exact wrapsTraining_effForEach _ (wrapsTraining_ddlStep cfg qcfg) ddls
    · intro _
      exact wrapsTraining_pure ()

/-- C7: (1)–(3) every failure of `trainFromDatabase` / `trainFromDdl` /
`trainFromDdlArray` is a `TrainingError` carrying the original cause; and
(4) a failure while processing element `i` of a batch aborts the remaining
sequence — the elements before it are already embedded and stored
(`trainPoints … pre`), the failing element's embed attempt is the last
traced call, and the elements after it are never attempted (the embeds
performed are exactly `pre ++ [bad]`): there is no continue-on-error mode. -/
theorem C7_training_failure_policy (cfg : TextToSqlConfig) (qcfg : QdrantConfig) :
    (∀ w e w', Training.trainFromDatabase cfg qcfg w = (.error e, w') →
      ∃ s c, e = Err.training s (some c)) ∧
    (∀ ddl w e w', Training.trainFromDdl cfg qcfg ddl w = (.error e, w') →
      ∃ s c, e = Err.training s (some c)) ∧
    (∀ ddls w e w', Training.trainFromDdlArray cfg qcfg ddls w = (.error e, w') →
      ∃ s c, e = Err.training s (some c)) ∧
    (∀ (pre : List String) (bad : String) (post : List String) (w : World)
      (m : String),
      w.env.getCollectionsFail = none → w.env.createFail = none →
      (∀ d ∈ pre, ∃ v, w.env.embedRes cfg.embeddingModel d = .ok v) →
      w.env.embedRes cfg.embeddingModel bad = .error m →
      w.env.upsertFail = none →
      ∃ e w', Training.trainFromDdlArray cfg qcfg (pre ++ bad :: post) w =
          (.error e, w') ∧
        (∃ s c, e = Err.training s (some c)) ∧
        w'.points = trainPoints w.env cfg.embeddingModel w.now w.points pre w.nextId ∧
        w'.trace = w.trace ++ ensureEvents w.collections qcfg.collectionName 1536 ++
          trainEvents w.env cfg.embeddingModel qcfg.collectionName w.now pre w.nextId ++
          [Call.llmEmbed cfg.embeddingModel bad] ∧
        embedTexts w'.trace = embedTexts w.trace ++ pre ++ [bad]) := by
  refine ⟨fun w e w' h => wrapsTraining_trainFromDatabase cfg qcfg w e w' h,
    fun ddl w e w' h => wrapsTraining_trainFromDdl cfg qcfg ddl w e w' h,
    fun ddls w e w' h => wrapsTraining_trainFromDdlArray cfg qcfg ddls w e w' h,
    ?_⟩
  intro pre bad post w m h1 h2 hembPre hbad hup
  have hcc := createCollection_ok qcfg 1536 w h1 h2
  have hstop := effForEach_ddlStep_stop cfg qcfg pre bad post
    { w with
      trace := w.trace ++ ensureEvents w.collections qcfg.collectionName 1536,
      collections := ensureCollections w.collections qcfg.collectionName 1536 }
    m hembPre hbad hup
  refine ⟨Err.training
      ("Failed to train schema: TextToSqlError: Failed to generate embedding: " ++ m)
      (some (.textToSql ("Failed to generate embedding: " ++ m) (some (.js m)))),
    { w with
      collections := ensureCollections w.collections qcfg.collectionName 1536,
      points := trainPoints w.env cfg.embeddingModel w.now w.points pre w.nextId,
      trace := w.trace ++ ensureEvents w.collections qcfg.collectionName 1536 ++
        trainEvents w.env cfg.embeddingModel qcfg.collectionName w.now pre w.nextId ++
        [Call.llmEmbed cfg.embeddingModel bad],
      nextId := w.nextId + pre.length }, ?_, ⟨_, _, rfl⟩, rfl, rfl, ?_⟩
  · simp only [Training.trainFromDdlArray, EffM.run_bind, EffM.run_mapErr,
      hcc, hstop, EffM.run_pure, List.append_assoc]
  · rw [embedTexts_append, embedTexts_append, embedTexts_append,
      embedTexts_ensureEvents, embedTexts_trainEvents]
    simp [embedTexts]

/-- A world whose embedding endpoint rejects the DDL `bad-ddl` and accepts
everything else. -/
def wC7 : World :=
  { w0 with env := { envOk with
      embedRes := fun _ t => if t = "bad-ddl" then .error "boom" else .ok [1] } }

/-- Witness for C7 at a concrete input: a three-element batch whose middle
element's embedding fails — the first element is stored, the third is never
attempted, and the surfaced error is a wrapped `TrainingError`. -/
theorem C7_training_failure_policy_witness :
    ∃ e w', Training.trainFromDdlArray ⟨"gpt-4", "emb", none, none⟩ qcfgW
        (["ok-ddl"] ++ "bad-ddl" :: ["never-ddl"]) wC7 = (.error e, w') ∧
      (∃ s c, e = Err.training s (some c)) ∧
      w'.points = trainPoints wC7.env "emb" wC7.now wC7.points ["ok-ddl"] wC7.nextId ∧
      w'.trace = wC7.trace ++ ensureEvents wC7.collections qcfgW.collectionName 1536 ++
        trainEvents wC7.env "emb" qcfgW.collectionName wC7.now ["ok-ddl"] wC7.nextId ++
        [Call.llmEmbed "emb" "bad-ddl"] ∧
      embedTexts w'.trace = embedTexts wC7.trace ++ ["ok-ddl"] ++ ["bad-ddl"] :=
  (C7_training_failure_policy ⟨"gpt-4", "emb", none, none⟩ qcfgW).2.2.2
    ["ok-ddl"] "bad-ddl" ["never-ddl"] wC7 "boom" rfl rfl
    (fun d hd => by
      simp only [List.mem_singleton] at hd
      subst hd
      exact ⟨[1], rfl⟩)
    rfl rfl

/-! ## C8: `generateSql` JSON handling -/

/-- C8 amended: with the embedding, search and completion calls succeeding,
`generateSql` fails with a `TextToSqlError` exactly when `JSON.parse` on the
completion text fails; when parsing yields a (non-null) value it returns the
three properties read off that value verbatim — with no presence check for
`sql`, `confidence` or `explanation` (an absent field comes back as the JS
`undefined`), no clamping of `confidence` into any range, and no repair or
retry. -/
theorem C8_generateSql_parse (cfg : TextToSqlConfig) (qcfg : QdrantConfig)
    (question : String) (w : World) (ev : List ℚ) (recs : List VectorRecord)
    (text : String)
    (hemb : w.env.embedRes cfg.embeddingModel question = .ok ev)
    (hsearch : w.env.searchRes ev 5 = .ok recs)
    (hcomplete : w.env.completeRes cfg.model
      (buildPrompt (String.intercalate "\n\n" (recs.map (·.content))) question)
      (cfg.maxTokens.getD 1000) (cfg.temperature.getD (1 / 10)) = .ok text) :
    (w.env.jsonParse text = none →
      ∃ w', TextToSql.generateSqlImpl cfg qcfg question w =
        (.error (.textToSql "Failed to parse AI response: SyntaxError"
          (some (.js "SyntaxError"))), w')) ∧
    (∀ v, w.env.jsonParse text = some v → v ≠ JsValue.nullv →
      ∃ w', TextToSql.generateSqlImpl cfg qcfg question w =
        (.ok { sql := v.fieldOf "sql", confidence := v.fieldOf "confidence",
               explanation := v.fieldOf "explanation" }, w')) := by
  constructor
  · intro hparse
    refine ⟨{ w with trace := w.trace ++
        [Call.llmEmbed cfg.embeddingModel question,
         Call.qdrantSearch qcfg.collectionName 5,
         Call.llmComplete cfg.model
           (buildPrompt (String.intercalate "\n\n" (recs.map (·.content))) question)
           (cfg.maxTokens.getD 1000) (cfg.temperature.getD (1 / 10))] }, ?_⟩
    simp only [TextToSql.generateSqlImpl, TextToSql.embedCall, Qdrant.search,
      TextToSql.completeCall, EffM.run_bind, EffM.run_mapErr, hemb, hsearch,
      hcomplete, hparse, List.append_assoc, List.cons_append, List.nil_append]
  · intro v hparse hv
    refine ⟨{ w with trace := w.trace ++
        [Call.llmEmbed cfg.embeddingModel question,
         Call.qdrantSearch qcfg.collectionName 5,
         Call.llmComplete cfg.model
           (buildPrompt (String.intercalate "\n\n" (recs.map (·.content))) question)
           (cfg.maxTokens.getD 1000) (cfg.temperature.getD (1 / 10))] }, ?_⟩
    simp only [TextToSql.generateSqlImpl, TextToSql.embedCall, Qdrant.search,
      TextToSql.completeCall, EffM.run_bind, EffM.run_mapErr, hemb, hsearch,
      hcomplete, hparse, List.append_assoc, List.cons_append, List.nil_append]

/-- The completion endpoint of the C8 counterexample returns the text `T`,
which parses to a JSON object with `confidence` and `explanation` but no
`sql` field. -/
def w8 : World :=
  { w0 with env := { envOk with
      completeRes := fun _ _ _ _ => .ok "T",
      jsonParse := fun _ => some (.obj
        [("confidence", .num (9 / 10)), ("explanation", .str "e")]) } }

/-- C8, counterexample to the claim as stated: a completion text that parses
as JSON but lacks the required `sql` field does not make `generateSql` fail —
the call succeeds, returning a result whose `sql` is the JS `undefined`. -/
theorem C8_missing_field_counterexample :
    w8.env.jsonParse "T" = some (JsValue.obj
      [("confidence", JsValue.num (9 / 10)), ("explanation", JsValue.str "e")]) ∧
    List.lookup "sql"
      [("confidence", JsValue.num (9 / 10)), ("explanation", JsValue.str "e")] = none ∧
    (TextToSql.generateSqlImpl ⟨"gpt-4", "emb", none, none⟩ qcfgW "q" w8).1 =
      .ok { sql := JsValue.undefv, confidence := JsValue.num (9 / 10),
            explanation := JsValue.str "e" } :=
  ⟨rfl, rfl, rfl⟩

/-- Witness for C8's amended theorem: the parse-failure case at `w0` (whose
`JSON.parse` always fails) and the missing-field case at `w8`. -/
theorem C8_generateSql_parse_witness :
    (∃ w', TextToSql.generateSqlImpl ⟨"gpt-4", "emb", none, none⟩ qcfgW "q" w0 =
      (.error (.textToSql "Failed to parse AI response: SyntaxError"
        (some (.js "SyntaxError"))), w')) ∧
    (∃ w', TextToSql.generateSqlImpl ⟨"gpt-4", "emb", none, none⟩ qcfgW "q" w8 =
      (.ok { sql := JsValue.undefv, confidence := JsValue.num (9 / 10),
             explanation := JsValue.str "e" }, w')) :=
  ⟨(C8_generateSql_parse ⟨"gpt-4", "emb", none, none⟩ qcfgW "q" w0 [1] [] "txt"
      rfl rfl rfl).1 rfl,
   (C8_generateSql_parse ⟨"gpt-4", "emb", none, none⟩ qcfgW "q" w8 [1] [] "T"
      rfl rfl rfl).2
     (JsValue.obj [("confidence", JsValue.num (9 / 10)), ("explanation", JsValue.str "e")])
     rfl (fun h => JsValue.noConfusion h)⟩
